import Mathlib

/-!
Shallow embedding of the SchoolNet_360 multi-school record-keeping
application (src/app.py, src/models.py, src/utils/bulk_importer.py),
together with theorems settling the specification claims.

Conventions of the embedding:
* Python ints are `Int` (or `Nat` for counters that are never negative).
* Database tables are explicit lists of records; a SQLAlchemy session is
  explicit state (pending staged rows, a flushed-prefix marker); `flush`
  surfaces unique-constraint violations against already-visible rows,
  `rollback` restores the state at the last commit, `commit` flushes the
  remaining rows and persists.
* Spreadsheet cells are `Option String` (`none` models a pandas NaN) and
  the `AdmissionYear` cell gets its own type distinguishing a blank cell,
  a non-numeric cell and a numeric value, mirroring how the importer's
  `pd.isna` / truthiness / `int(...)` coercion treat them.
* Exception messages raised by the database driver are abstracted to the
  fixed string "UNIQUE constraint failed"; the surrounding f-string text
  is reproduced exactly.
-/

namespace SchoolNet

/-- `GradeLetter` enum from models.py (AP renders as "A+"). -/
inductive GradeLetter
  | AP
  | A
  | B
  | C
  | D
  | F
deriving DecidableEq, Repr

/-- `AttendanceStatus` enum from models.py. -/
inductive AttendanceStatus
  | PRESENT
  | ABSENT
  | LATE
  | EXCUSED
deriving DecidableEq, Repr

/-- `calculate_grade_letter` from app.py lines 85-91. -/
def calculate_grade_letter (marks : Int) : GradeLetter :=
  if marks ≥ 90 then .AP
  else if marks ≥ 80 then .A
  else if marks ≥ 70 then .B
  else if marks ≥ 60 then .C
  else if marks ≥ 50 then .D
  else .F

/-- The fields of `Student` (models.py) that the claims depend on. -/
structure Student where
  id : Nat
  school_id : Nat
  admission_number : String
  admission_year : Int
deriving DecidableEq, Repr

/-- The derived `Student.form` property (models.py lines 106-116):
`min((current_year - admission_year) + 1, 4)`, computed on read from the
stored `admission_year`; there is no stored form column. -/
def Student.form (current_year : Int) (s : Student) : Int :=
  min ((current_year - s.admission_year) + 1) 4

/-- The teacher attendance-roster query (app.py lines 498-499):
`required_admission_year = (current_year - form_num) + 1` and a filter on
`school_id` and that exact admission year. -/
def rosterStudents (students : List Student) (school_id : Nat)
    (current_year form_num : Int) : List Student :=
  students.filter
    (fun s => s.school_id == school_id &&
      s.admission_year == (current_year - form_num) + 1)

/-- Student lookup in the grade-entry handler (app.py line 445):
filtered by admission number and the acting teacher's school. -/
def findStudentByAdmission (students : List Student)
    (admission : String) (school_id : Nat) : Option Student :=
  students.find?
    (fun s => s.admission_number == admission && s.school_id == school_id)

/-- The fields of `Grade` (models.py) used by the claims. -/
structure Grade where
  marks : Int
  grade_letter : GradeLetter
  term : String
  student_id : Nat
  subject_id : Nat
  teacher_id : Nat
deriving DecidableEq, Repr

/-- Whether a grade row matches the (student, subject, term) triple used as
the upsert key in app.py line 449. -/
def gradeKey (sid subj : Nat) (term : String) (g : Grade) : Bool :=
  g.student_id == sid && g.subject_id == subj && g.term == term

/-- Grade submission from `teacher_dashboard` (app.py lines 449-456): look
up an existing grade by (student, subject, term); if present overwrite its
marks, recomputed letter and teacher; otherwise insert a new row. -/
def submit_grade (grades : List Grade) (sid subj : Nat) (term : String)
    (marks : Int) (tid : Nat) : List Grade :=
  match grades with
  | [] => [⟨marks, calculate_grade_letter marks, term, sid, subj, tid⟩]
  | g :: gs =>
    if gradeKey sid subj term g then
      { g with marks := marks, grade_letter := calculate_grade_letter marks,
               teacher_id := tid } :: gs
    else g :: submit_grade gs sid subj term marks tid

/-- `StudentLinkCode` rows (models.py): `student_id` carries a UNIQUE
constraint, so at most one row per student exists in any reachable state. -/
structure StudentLinkCode where
  code : String
  is_used : Bool
  student_id : Nat
deriving DecidableEq, Repr

/-- `admin_generate_link_code` (app.py lines 365-375): delete the student's
existing link-code row (the relationship is one-to-one, so the filter
removes exactly that row), then insert a fresh unused code. -/
def admin_generate_link_code (codes : List StudentLinkCode)
    (student_id : Nat) (new_code : String) : List StudentLinkCode :=
  (codes.filter (fun lc => lc.student_id != student_id)) ++
    [⟨new_code, false, student_id⟩]

/-- The fields of `Parent` used by the linking workflow. -/
structure Parent where
  school_id : Nat
  children : List Nat
deriving DecidableEq, Repr

/-- Outcome of a link-code redemption attempt. -/
inductive LinkOutcome
  | linked
  | invalidCode
  | wrongSchool
deriving DecidableEq, Repr

/-- `parent_link_student` (app.py lines 546-560): find an unused row with
the submitted code; absent (nonexistent or already used) means failure with
the generic message and no state change; a cross-school student is rejected;
otherwise the parent-student association is added and the code flipped to
used.  (The student lookup cannot fail under foreign-key integrity; the
impossible branch reports `invalidCode` and changes nothing.) -/
def parent_link_student (codes : List StudentLinkCode)
    (students : List Student) (parent : Parent) (code : String) :
    LinkOutcome × List StudentLinkCode × Parent :=
  match codes.find? (fun lc => lc.code == code && lc.is_used == false) with
  | none => (.invalidCode, codes, parent)
  | some lc =>
    match students.find? (fun s => s.id == lc.student_id) with
    | none => (.invalidCode, codes, parent)
    | some student =>
      if student.school_id != parent.school_id then
        (.wrongSchool, codes, parent)
      else
        (.linked,
         codes.map (fun c => if c.code == code then { c with is_used := true } else c),
         { parent with children := parent.children ++ [student.id] })

/-- The fields of `Attendance` (models.py) used by the claims. -/
structure Attendance where
  date : Int
  status : AttendanceStatus
  student_id : Nat
  teacher_id : Nat
deriving DecidableEq, Repr

/-- One (student, date) upsert from the attendance POST handler (app.py
lines 486-488): overwrite the first record matching the pair, else insert. -/
def upsertAttendance (records : List Attendance) (date : Int)
    (student_id : Nat) (status : AttendanceStatus) (teacher_id : Nat) :
    List Attendance :=
  match records with
  | [] => [⟨date, status, student_id, teacher_id⟩]
  | r :: rs =>
    if r.date == date && r.student_id == student_id then
      { r with status := status, teacher_id := teacher_id } :: rs
    else r :: upsertAttendance rs date student_id status teacher_id

/-- The attendance POST loop (app.py lines 483-489): every submitted
`student_<id>` form entry is upserted keyed on (date, student_id).  The
handler performs no lookup of the student row and no school check. -/
def saveAttendanceRoster (records : List Attendance) (date : Int)
    (teacher_id : Nat) (entries : List (Nat × AttendanceStatus)) :
    List Attendance :=
  entries.foldl
    (fun recs e => upsertAttendance recs date e.1 e.2 teacher_id) records

/-- The roster page's read of existing attendance records (app.py line
500): `Attendance.query.filter_by(date=date_obj).all()` - filtered by date
only, not by school. -/
def existingAttendanceFor (records : List Attendance) (date : Int) :
    List Attendance :=
  records.filter (fun r => r.date == date)

/-! ### String helpers shared by the handlers and the bulk importer -/

/-- Python `str.strip()`: remove leading and trailing whitespace. -/
def strip (s : String) : String :=
  String.mk
    (((s.data.dropWhile Char.isWhitespace).reverse.dropWhile
        Char.isWhitespace).reverse)

/-- Python `str.lower()` as used for the subject dedup sets. -/
def toLowerStr (s : String) : String :=
  String.mk (s.data.map Char.toLower)

/-- `school.school_code.split('@')[0]` (app.py line 351, bulk_importer.py
line 86): the prefix of the school code before the first `@`. -/
def splitBase (s : String) : String :=
  String.mk (s.data.takeWhile (fun c => c != '@'))

/-- `str(adm_year)[-2:]` (app.py line 352, bulk_importer.py line 130): the
last two characters of the decimal rendering of the admission year. -/
def twoDigitYear (z : Int) : String :=
  let l := (toString z).data
  String.mk (l.drop (l.length - 2))

/-- Little-endian decimal digits with explicit fuel (structural recursion;
`digitsOf` below always supplies enough fuel). -/
def toDigitsRev : Nat → Nat → List Nat
  | 0, _ => []
  | fuel+1, n => if n == 0 then [] else n % 10 :: toDigitsRev fuel (n / 10)

/-- Little-endian decimal digits of `n` (empty for `n = 0`). -/
def digitsOf (n : Nat) : List Nat := toDigitsRev (n+1) n

/-- The character for a decimal digit. -/
def digitChar (d : Nat) : Char := Char.ofNat (48 + d)

/-- Digits of `n` padded with (most-significant) zeros to at least five
digits, still little-endian. -/
def padDigits5 (n : Nat) : List Nat :=
  digitsOf n ++ List.replicate (5 - (digitsOf n).length) 0

/-- Python `f"{n:05d}"` for a nonnegative `n`: the decimal rendering,
zero-padded on the left to a minimum width of five. -/
def pad5 (n : Nat) : String :=
  String.mk ((padDigits5 n).reverse.map digitChar)

/-- `generate_admission_number` (app.py lines 93-94):
`f"{school_code_base}/{student_id:05d}/{year_str}"`. -/
def generate_admission_number (school_code_base : String)
    (student_id : Nat) (year_str : String) : String :=
  school_code_base ++ "/" ++ pad5 student_id ++ "/" ++ year_str

/-! ### Bulk importer (src/utils/bulk_importer.py)

Spreadsheet cells are modelled after pandas' behaviour: a text cell is
`Option String` with `none` for NaN (an empty cell); the `AdmissionYear`
cell additionally distinguishes a non-numeric entry (`int(...)` raises
`ValueError`) from a numeric one.  A cell that is an empty string is
falsy in Python exactly like NaN along the paths the importer takes, and
is folded into `blank` for the year cell. -/

/-- The `AdmissionYear` cell of a student row. -/
inductive YearCell
  | blank
  | notNumeric
  | year (z : Int)
deriving DecidableEq, Repr

/-- Python truthiness of the raw `AdmissionYear` cell inside
`all([full_name, adm_year, username, password])`: NaN and nonempty strings
are truthy, the number 0 is falsy. -/
def yearTruthy : YearCell → Bool
  | .blank => true
  | .notNumeric => true
  | .year z => z != 0

/-- `str(cell).strip()`: NaN renders as the (nonempty) string "nan". -/
def cellStr : Option String → String
  | none => "nan"
  | some s => strip s

/-- The import report `{added, skipped, errors}`. -/
structure Report where
  added : Nat
  skipped : Nat
  errors : List String
deriving DecidableEq, Repr

/-- Record one skipped row in a report. -/
def Report.skip (r : Report) (msg : String) : Report :=
  { r with skipped := r.skipped + 1, errors := r.errors ++ [msg] }

/-! #### Subject upload -/

/-- Loop state of `process_subject_upload`: the report, the (lowercased)
dedup set `existing_subjects`, and the staged subject names.  `Subject`
rows carry no unique database constraint (models.py), so staging and the
final commit cannot raise; the session bookkeeping is just the staged
list. -/
structure SubjectLoopSt where
  report : Report
  existing : List String
  new_subjects : List String
deriving DecidableEq, Repr

/-- One iteration of the subject-upload row loop (bulk_importer.py lines
30-50). -/
def subjectStep (i : Nat) (cell : Option String) (st : SubjectLoopSt) :
    SubjectLoopSt :=
  if cellStr cell == "" || cell.isNone then
    { st with report :=
        st.report.skip ("Row " ++ toString (i+2) ++ ": SubjectName is blank.") }
  else if st.existing.contains (toLowerStr (cellStr cell)) then
    { st with report :=
        st.report.skip ("Row " ++ toString (i+2) ++ ": Subject '" ++
          cellStr cell ++ "' already exists.") }
  else
    { report := { st.report with added := st.report.added + 1 },
      existing := st.existing ++ [toLowerStr (cellStr cell)],
      new_subjects := st.new_subjects ++ [cellStr cell] }

/-- The subject-upload row loop. -/
def subjectLoop (i : Nat) (cells : List (Option String))
    (st : SubjectLoopSt) : SubjectLoopSt :=
  match cells with
  | [] => st
  | c :: cs => subjectLoop (i+1) cs (subjectStep i c st)

/-- `process_subject_upload` (bulk_importer.py lines 9-61), starting from
the parsed spreadsheet (its column names and the `SubjectName` cells) and
the snapshot of the school's existing subject names (already lowercased,
as the code builds the set).  Returns the report and the committed new
subject names, or the raised message. -/
def process_subject_upload (cols : List String)
    (cells : List (Option String)) (existing_subjects : List String) :
    Except String (Report × List String) :=
  if !(cols.contains "SubjectName") then
    .error "Invalid file format. Missing required column: 'SubjectName'"
  else
    .ok ((subjectLoop 0 cells ⟨⟨0, 0, []⟩, existing_subjects, []⟩).report,
         (subjectLoop 0 cells ⟨⟨0, 0, []⟩, existing_subjects, []⟩).new_subjects)

/-! #### Student upload -/

/-- One parsed row of a students spreadsheet. -/
structure StudentRowInput where
  full_name : Option String
  admission_year : YearCell
  login_username : Option String
  initial_password : Option String
deriving DecidableEq, Repr

/-- A staged/committed student record produced by the importer. -/
structure StudentRec where
  full_name : String
  admission_number : String
  admission_year : Int
  username : String
deriving DecidableEq, Repr

/-- The database state the student importer sees: the usernames of all
users (the snapshot `User.query.all()` and the unique constraint's
universe) and the admission numbers of all students in every school (the
`Student.admission_number` unique constraint is global). -/
structure Db where
  usernames : List String
  admission_numbers : List String
deriving DecidableEq, Repr

/-- The target school of a student import: its code and its pre-import
student count (`Student.query.filter_by(school_id=...).count()`). -/
structure SchoolRef where
  school_code : String
  pre_count : Nat
deriving DecidableEq, Repr

/-- Bookkeeping for one accepted row: the sequence number the running
counter assigned, the admission year, and the resulting admission number
(specification bookkeeping; the source counts these rows in
`report["added"]`). -/
structure AcceptedEntry where
  seq : Nat
  year : Int
  admission_number : String
deriving DecidableEq, Repr

/-- Loop state of `process_student_upload`: the report, the running
`student_count` counter, `new_users_in_file`, the session's pending
(staged, uncommitted) users and students, how many pending students have
already been flushed, and the accepted-row bookkeeping (never cleared by a
rollback - it records which rows the loop accepted, not what survives). -/
structure StudentLoopSt where
  report : Report
  counter : Nat
  new_users_in_file : List String
  pending_users : List String
  pending_students : List StudentRec
  flushed : Nat
  accepted : List AcceptedEntry
deriving DecidableEq, Repr

/-- Whether `db.session.flush()` raises: a newly flushed student's
admission number collides with a committed one or with an already-flushed
pending one, or the newly flushed username collides with a committed or
already-flushed pending username. -/
def studentFlushConflict (db : Db) (st : StudentLoopSt)
    (username : String) : Bool :=
  (st.pending_students.drop st.flushed).any
    (fun stu =>
      db.admission_numbers.contains stu.admission_number ||
      ((st.pending_students.take st.flushed).map
          (fun p => p.admission_number)).contains stu.admission_number) ||
  db.usernames.contains username || st.pending_users.contains username

/-- One iteration of the student-upload row loop (bulk_importer.py lines
91-143).  The staging order follows the source: stage the user, `flush`
(this also flushes the students staged by earlier rows; on a constraint
violation the exception handler calls `db.session.rollback()`, which
discards *everything* staged since the last commit), then increment the
counter, build the admission number and stage the student. -/
def studentStep (db : Db) (base : String) (i : Nat) (r : StudentRowInput)
    (st : StudentLoopSt) : StudentLoopSt :=
  if r.full_name.isNone || r.admission_year == YearCell.blank ||
      r.login_username.isNone || r.initial_password.isNone ||
      cellStr r.full_name == "" || !yearTruthy r.admission_year ||
      cellStr r.login_username == "" || cellStr r.initial_password == "" then
    { st with report :=
        st.report.skip ("Row " ++ toString (i+2) ++ ": One or more cells are blank.") }
  else
    match r.admission_year with
    | .year z =>
      if !(decide (2000 ≤ z) && decide (z ≤ 2100)) then
        { st with report :=
            st.report.skip ("Row " ++ toString (i+2) ++
              ": 'AdmissionYear' must be a 4-digit number (e.g., 2025).") }
      else if db.usernames.contains (cellStr r.login_username) ||
          st.new_users_in_file.contains (cellStr r.login_username) then
        { st with report :=
            st.report.skip ("Row " ++ toString (i+2) ++ ": Username '" ++
              cellStr r.login_username ++ "' is already taken.") }
      else if (cellStr r.initial_password).length < 6 then
        { st with report :=
            st.report.skip ("Row " ++ toString (i+2) ++ ": Password for '" ++
              cellStr r.login_username ++ "' must be at least 6 characters.") }
      else if studentFlushConflict db st (cellStr r.login_username) then
        -- IntegrityError inside the row's try block: rollback clears the
        -- whole pending session; counter was not yet incremented.
        { report := st.report.skip
            ("Row " ++ toString (i+2) ++ ": Error for '" ++ cellStr r.login_username ++
              "'. UNIQUE constraint failed"),
          counter := st.counter,
          new_users_in_file := st.new_users_in_file,
          pending_users := [], pending_students := [], flushed := 0,
          accepted := st.accepted }
      else
        { report := { st.report with added := st.report.added + 1 },
          counter := st.counter + 1,
          new_users_in_file := st.new_users_in_file ++ [cellStr r.login_username],
          pending_users := st.pending_users ++ [cellStr r.login_username],
          pending_students := st.pending_students ++
            [⟨cellStr r.full_name,
              generate_admission_number base (st.counter + 1) (twoDigitYear z),
              z, cellStr r.login_username⟩],
          flushed := st.pending_students.length,
          accepted := st.accepted ++
            [⟨st.counter + 1, z,
              generate_admission_number base (st.counter + 1) (twoDigitYear z)⟩] }
    | _ =>
      -- non-numeric cell: int(...) raises ValueError, caught per row
      { st with report :=
          st.report.skip ("Row " ++ toString (i+2) ++
            ": 'AdmissionYear' must be a 4-digit number (e.g., 2025).") }

/-- The student-upload row loop. -/
def studentLoop (db : Db) (base : String) (i : Nat)
    (rows : List StudentRowInput) (st : StudentLoopSt) : StudentLoopSt :=
  match rows with
  | [] => st
  | r :: rs => studentLoop db base (i+1) rs (studentStep db base i r st)

/-- The initial loop state, the counter seeded with the pre-import count. -/
def initStudentSt (pre_count : Nat) : StudentLoopSt :=
  ⟨⟨0, 0, []⟩, pre_count, [], [], [], 0, []⟩

/-- The required columns of a students file. -/
def studentRequiredCols : List String :=
  ["FullName", "AdmissionYear", "LoginUsername", "InitialPassword"]

/-- Whether the final commit of the student import raises: flushing the
remaining unflushed students hits the admission-number unique
constraint. -/
def studentCommitConflict (db : Db) (st : StudentLoopSt) : Bool :=
  (st.pending_students.drop st.flushed).any
    (fun stu =>
      db.admission_numbers.contains stu.admission_number ||
      ((st.pending_students.take st.flushed).map
          (fun p => p.admission_number)).contains stu.admission_number)

/-- `process_student_upload` (bulk_importer.py lines 64-154), from the
parsed spreadsheet (columns and rows), the database snapshot and the
target school.  Returns the report together with the students actually
committed, or the raised message. -/
def process_student_upload (cols : List String)
    (rows : List StudentRowInput) (db : Db) (school : SchoolRef) :
    Except String (Report × List StudentRec) :=
  if !(studentRequiredCols.all (fun c => cols.contains c)) then
    .error ("Invalid file format. Missing one or more required columns: " ++
      "['FullName', 'AdmissionYear', 'LoginUsername', 'InitialPassword']")
  else if studentCommitConflict db
      (studentLoop db (splitBase school.school_code) 0 rows
        (initStudentSt school.pre_count)) then
    .error "Database error. This may be due to duplicate data."
  else
    .ok ((studentLoop db (splitBase school.school_code) 0 rows
            (initStudentSt school.pre_count)).report,
         (studentLoop db (splitBase school.school_code) 0 rows
            (initStudentSt school.pre_count)).pending_students)

/-! #### School upload -/

/-- One parsed row of a schools spreadsheet. -/
structure SchoolRowInput where
  school_name : Option String
  school_code : Option String
  admin_username : Option String
  admin_password : Option String
deriving DecidableEq, Repr

/-- The database snapshot the school importer sees: all school codes and
all usernames (both carry unique constraints). -/
structure SchoolDb where
  school_codes : List String
  usernames : List String
deriving DecidableEq, Repr

/-- Loop state of `process_school_upload`: the report, the in-file dedup
lists, the session's pending school codes and admin usernames, and how
many of each have been flushed. -/
structure SchoolLoopSt where
  report : Report
  new_codes_in_file : List String
  new_users_in_file : List String
  pending_schools : List String
  pending_users : List String
  flushed_schools : Nat
  flushed_users : Nat
deriving DecidableEq, Repr

/-- Whether the `flush` after staging a new school raises: the new code
(or a previously staged, not yet flushed admin username) hits a unique
constraint. -/
def schoolFlushConflict (db : SchoolDb) (st : SchoolLoopSt)
    (code : String) : Bool :=
  db.school_codes.contains code ||
  (st.pending_schools.take st.flushed_schools).contains code ||
  (st.pending_users.drop st.flushed_users).any
    (fun u =>
      db.usernames.contains u ||
      (st.pending_users.take st.flushed_users).contains u)

/-- One iteration of the school-upload row loop (bulk_importer.py lines
181-235): blank check, code dedup, username dedup, password length, then
stage the school, `flush`, stage the admin user. -/
def schoolStep (db : SchoolDb) (i : Nat) (r : SchoolRowInput)
    (st : SchoolLoopSt) : SchoolLoopSt :=
  if r.school_name.isNone || r.school_code.isNone ||
      r.admin_username.isNone || r.admin_password.isNone ||
      cellStr r.school_name == "" || cellStr r.school_code == "" ||
      cellStr r.admin_username == "" || cellStr r.admin_password == "" then
    { st with report :=
        st.report.skip ("Row " ++ toString (i+2) ++ ": One or more cells are blank.") }
  else if db.school_codes.contains (cellStr r.school_code) ||
      st.new_codes_in_file.contains (cellStr r.school_code) then
    { st with report :=
        st.report.skip ("Row " ++ toString (i+2) ++ ": SchoolCode '" ++
          cellStr r.school_code ++ "' is already taken.") }
  else if db.usernames.contains (cellStr r.admin_username) ||
      st.new_users_in_file.contains (cellStr r.admin_username) then
    { st with report :=
        st.report.skip ("Row " ++ toString (i+2) ++ ": AdminUsername '" ++
          cellStr r.admin_username ++ "' is already taken.") }
  else if (cellStr r.admin_password).length < 6 then
    { st with report :=
        st.report.skip ("Row " ++ toString (i+2) ++ ": Password for '" ++
          cellStr r.admin_username ++ "' must be at least 6 characters.") }
  else if schoolFlushConflict db st (cellStr r.school_code) then
    -- IntegrityError at flush: rollback discards the whole pending batch.
    { report := st.report.skip ("Row " ++ toString (i+2) ++ ": Error for '" ++
        cellStr r.school_code ++ "'. UNIQUE constraint failed"),
      new_codes_in_file := st.new_codes_in_file,
      new_users_in_file := st.new_users_in_file,
      pending_schools := [], pending_users := [],
      flushed_schools := 0, flushed_users := 0 }
  else
    { report := { st.report with added := st.report.added + 1 },
      new_codes_in_file := st.new_codes_in_file ++ [cellStr r.school_code],
      new_users_in_file := st.new_users_in_file ++ [cellStr r.admin_username],
      pending_schools := st.pending_schools ++ [cellStr r.school_code],
      pending_users := st.pending_users ++ [cellStr r.admin_username],
      flushed_schools := st.pending_schools.length + 1,
      flushed_users := st.pending_users.length }

/-- The school-upload row loop. -/
def schoolLoop (db : SchoolDb) (i : Nat) (rows : List SchoolRowInput)
    (st : SchoolLoopSt) : SchoolLoopSt :=
  match rows with
  | [] => st
  | r :: rs => schoolLoop db (i+1) rs (schoolStep db i r st)

/-- The required columns of a schools file. -/
def schoolRequiredCols : List String :=
  ["SchoolName", "SchoolCode", "AdminUsername", "AdminPassword"]

/-- Whether the final commit of the school import raises: flushing the
remaining staged admin users hits the username unique constraint. -/
def schoolCommitConflict (db : SchoolDb) (st : SchoolLoopSt) : Bool :=
  (st.pending_users.drop st.flushed_users).any
    (fun u =>
      db.usernames.contains u ||
      (st.pending_users.take st.flushed_users).contains u)

/-- `process_school_upload` (bulk_importer.py lines 157-246). Returns the
report with the committed school codes and admin usernames, or the raised
message. -/
def process_school_upload (cols : List String)
    (rows : List SchoolRowInput) (db : SchoolDb) :
    Except String (Report × List String × List String) :=
  if !(schoolRequiredCols.all (fun c => cols.contains c)) then
    .error ("Invalid file format. Missing one or more required columns: " ++
      "['SchoolName', 'SchoolCode', 'AdminUsername', 'AdminPassword']")
  else if schoolCommitConflict db
      (schoolLoop db 0 rows ⟨⟨0, 0, []⟩, [], [], [], [], 0, 0⟩) then
    .error "Database error. This may be due to duplicate data."
  else
    .ok ((schoolLoop db 0 rows ⟨⟨0, 0, []⟩, [], [], [], [], 0, 0⟩).report,
         (schoolLoop db 0 rows ⟨⟨0, 0, []⟩, [], [], [], [], 0, 0⟩).pending_schools,
         (schoolLoop db 0 rows ⟨⟨0, 0, []⟩, [], [], [], [], 0, 0⟩).pending_users)

/-! ### Helper lemmas: decimal digits, padding, admission-number shape -/

/-- Value of a little-endian digit list. -/
def unDigits : List Nat → Nat
  | [] => 0
  | d :: ds => d + 10 * unDigits ds

theorem unDigits_replicate_zero (k : Nat) :
    unDigits (List.replicate k 0) = 0 := by
  induction k with
  | zero => rfl
  | succ k ih => simp [List.replicate_succ, unDigits, ih]

theorem unDigits_append_zeros (l : List Nat) (k : Nat) :
    unDigits (l ++ List.replicate k 0) = unDigits l := by
  induction l with
  | nil => simpa using unDigits_replicate_zero k
  | cons d ds ih => simp [unDigits, ih]

theorem unDigits_toDigitsRev :
    ∀ fuel n, n ≤ fuel → unDigits (toDigitsRev fuel n) = n := by
  intro fuel
  induction fuel with
  | zero =>
    intro n h
    have : n = 0 := by omega
    subst this; rfl
  | succ f ih =>
    intro n h
    rcases Nat.eq_zero_or_pos n with h0 | h0
    · subst h0; rfl
    · have hne : (n == 0) = false := by simpa using Nat.pos_iff_ne_zero.mp h0
      have hdiv : n / 10 ≤ f := by
        have := Nat.div_lt_self h0 (by norm_num : 1 < 10)
        omega
      simp only [toDigitsRev, hne, Bool.false_eq_true, if_false, unDigits]
      rw [ih _ hdiv]
      exact Nat.mod_add_div n 10

theorem unDigits_digitsOf (n : Nat) : unDigits (digitsOf n) = n :=
  unDigits_toDigitsRev (n+1) n (by omega)

theorem padDigits5_inj {a b : Nat} (h : padDigits5 a = padDigits5 b) :
    a = b := by
  have := congrArg unDigits h
  rwa [padDigits5, padDigits5, unDigits_append_zeros, unDigits_append_zeros,
    unDigits_digitsOf, unDigits_digitsOf] at this

theorem toDigitsRev_lt_ten :
    ∀ fuel n, ∀ d ∈ toDigitsRev fuel n, d < 10 := by
  intro fuel
  induction fuel with
  | zero => intro n d hd; simp [toDigitsRev] at hd
  | succ f ih =>
    intro n d hd
    by_cases h0 : n = 0
    · subst h0; simp [toDigitsRev] at hd
    · have hne : (n == 0) = false := by simpa using h0
      simp only [toDigitsRev, hne, Bool.false_eq_true, if_false,
        List.mem_cons] at hd
      rcases hd with hd | hd
      · subst hd; exact Nat.mod_lt _ (by norm_num)
      · exact ih _ _ hd

theorem padDigits5_lt_ten (n : Nat) : ∀ d ∈ padDigits5 n, d < 10 := by
  intro d hd
  rcases List.mem_append.mp hd with h | h
  · exact toDigitsRev_lt_ten _ _ _ h
  · have := List.eq_of_mem_replicate h
    omega

theorem digitChar_inj_lt :
    ∀ d1, d1 < 10 → ∀ d2, d2 < 10 → digitChar d1 = digitChar d2 →
      d1 = d2 := by decide

theorem digitChar_isDigit : ∀ d, d < 10 → (digitChar d).isDigit = true := by
  decide

theorem map_digitChar_inj :
    ∀ (l1 l2 : List Nat), (∀ d ∈ l1, d < 10) → (∀ d ∈ l2, d < 10) →
      l1.map digitChar = l2.map digitChar → l1 = l2 := by
  intro l1
  induction l1 with
  | nil =>
    intro l2 _ _ h
    cases l2 with
    | nil => rfl
    | cons d t => simp at h
  | cons d1 t1 ih =>
    intro l2 h1 h2 h
    cases l2 with
    | nil => simp at h
    | cons d2 t2 =>
      simp only [List.map_cons, List.cons.injEq] at h
      have hd : d1 = d2 :=
        digitChar_inj_lt d1 (h1 _ (by simp)) d2 (h2 _ (by simp)) h.1
      have ht : t1 = t2 :=
        ih t2 (fun d hd => h1 _ (by simp [hd]))
          (fun d hd => h2 _ (by simp [hd])) h.2
      rw [hd, ht]

theorem pad5_data_inj {a b : Nat} (h : (pad5 a).data = (pad5 b).data) :
    a = b := by
  unfold pad5 at h
  have h' : (padDigits5 a).reverse.map digitChar =
      (padDigits5 b).reverse.map digitChar := h
  have hrev : (padDigits5 a).reverse = (padDigits5 b).reverse :=
    map_digitChar_inj _ _
      (fun d hd => padDigits5_lt_ten a d (List.mem_reverse.mp hd))
      (fun d hd => padDigits5_lt_ten b d (List.mem_reverse.mp hd)) h'
  exact padDigits5_inj (List.reverse_injective hrev)

theorem pad5_isDigit (n : Nat) : ∀ c ∈ (pad5 n).data, c.isDigit = true := by
  intro c hc
  unfold pad5 at hc
  rcases List.mem_map.mp hc with ⟨d, hd, rfl⟩
  exact digitChar_isDigit d (padDigits5_lt_ten n d (List.mem_reverse.mp hd))

theorem digits_slash_split :
    ∀ (l1 : List Char), (∀ c ∈ l1, c.isDigit = true) →
    ∀ (l2 : List Char), (∀ c ∈ l2, c.isDigit = true) →
    ∀ (r1 r2 : List Char), l1 ++ '/' :: r1 = l2 ++ '/' :: r2 → l1 = l2 := by
  intro l1
  induction l1 with
  | nil =>
    intro _ l2 h2 r1 r2 heq
    cases l2 with
    | nil => rfl
    | cons c t =>
      exfalso
      simp only [List.nil_append, List.cons_append, List.cons.injEq] at heq
      have := h2 c (by simp)
      rw [← heq.1] at this
      simp [Char.isDigit] at this
  | cons c1 t1 ih =>
    intro h1 l2 h2 r1 r2 heq
    cases l2 with
    | nil =>
      exfalso
      simp only [List.nil_append, List.cons_append, List.cons.injEq] at heq
      have := h1 c1 (by simp)
      rw [heq.1] at this
      simp [Char.isDigit] at this
    | cons c2 t2 =>
      simp only [List.cons_append, List.cons.injEq] at heq
      have := ih (fun c hc => h1 c (by simp [hc])) t2
        (fun c hc => h2 c (by simp [hc])) r1 r2 heq.2
      rw [heq.1, this]

theorem generate_admission_number_seq_inj {base : String} {s1 s2 : Nat}
    {y1 y2 : String}
    (h : generate_admission_number base s1 y1 =
         generate_admission_number base s2 y2) : s1 = s2 := by
  unfold generate_admission_number at h
  have hd := congrArg String.data h
  have hslash : ("/" : String).data = ['/'] := rfl
  simp only [String.data_append, hslash, List.append_assoc,
    List.cons_append, List.nil_append] at hd
  have hd' := List.append_cancel_left hd
  simp only [List.cons.injEq, true_and] at hd'
  exact pad5_data_inj
    (digits_slash_split _ (pad5_isDigit s1) _ (pad5_isDigit s2) _ _ hd')

/-! ### Claim theorems -/

/-- C1: the claim says every teacher-facing query or mutation naming a
student of another school yields not-found/forbidden and writes nothing.
The attendance POST handler (app.py lines 483-489) contradicts this: it
upserts an attendance row for every submitted `student_<id>` key with no
check that the student belongs to the teacher's school, and the roster
page's read of existing records (line 500) filters by date only.  Here a
teacher of school 1 posts a status for student 7 of school 2: the record
is written, and the unscoped read returns another school's record. -/
theorem c1_attendance_cross_tenant_write :
    (Student.mk 7 2 "XYZ/00007/24" 2024).school_id ≠ 1 ∧
    saveAttendanceRoster [] 0 5 [(7, AttendanceStatus.PRESENT)] =
      [⟨0, AttendanceStatus.PRESENT, 7, 5⟩] ∧
    existingAttendanceFor [⟨0, AttendanceStatus.ABSENT, 7, 9⟩] 0 =
      [⟨0, AttendanceStatus.ABSENT, 7, 9⟩] := by
  refine ⟨by decide, by rfl, by rfl⟩

/-- C3: the claim says a staging-time exception rolls back only the failing
row's writes and earlier accepted rows survive the final commit.  In the
code the per-row exception handler calls `db.session.rollback()`, which
discards the whole uncommitted batch.  Concretely: school `GHS@1` is empty
but another school's student already holds admission number
`GHS/00001/24`; row 2's flush then fails on row 1's staged student, the
rollback erases Ann (row 1), the report still counts her as added, and the
commit stores no students at all. -/
theorem c3_rollback_discards_earlier_rows :
    process_student_upload studentRequiredCols
      [⟨some "Ann", .year 2024, some "ann1", some "secret1"⟩,
       ⟨some "Bob", .year 2025, some "bob1", some "secret2"⟩]
      ⟨[], ["GHS/00001/24"]⟩ ⟨"GHS@1", 0⟩ =
    .ok (⟨1, 1, ["Row 3: Error for 'bob1'. UNIQUE constraint failed"]⟩, []) := by
  rfl

/-- C5: the derived form equals `min(4, currentYear - admissionYear + 1)`
(models.py lines 106-116 compute `min((current - admission) + 1, 4)`), and
for a fixed current year it is monotonically non-increasing in the
admission year. -/
theorem c5_form_formula_and_monotone (c : Int) (s s' : Student)
    (h : s.admission_year ≤ s'.admission_year) :
    Student.form c s = min 4 (c - s.admission_year + 1) ∧
    Student.form c s' ≤ Student.form c s := by
  unfold Student.form
  exact ⟨min_comm _ _, min_le_min (by omega) le_rfl⟩

/-- Witness for C5 at admission years 2024 ≤ 2025, current year 2025. -/
theorem c5_form_formula_and_monotone_witness :
    (Student.mk 1 1 "A/00001/24" 2024).admission_year ≤
      (Student.mk 2 1 "A/00002/25" 2025).admission_year ∧
    (Student.form 2025 (Student.mk 1 1 "A/00001/24" 2024) =
      min 4 (2025 - (Student.mk 1 1 "A/00001/24" 2024).admission_year + 1) ∧
     Student.form 2025 (Student.mk 2 1 "A/00002/25" 2025) ≤
      Student.form 2025 (Student.mk 1 1 "A/00001/24" 2024)) :=
  ⟨by decide,
   c5_form_formula_and_monotone 2025 (Student.mk 1 1 "A/00001/24" 2024)
     (Student.mk 2 1 "A/00002/25" 2025) (by decide)⟩

/-- C6 counterexample: the claim says a student admitted more than four
years ago (derived cohort clamped to 4) appears on the Form 4 roster.  The
roster query (app.py lines 498-499) filters on the exact admission year
`currentYear - form + 1`, so with current year 2025 a student admitted in
2020 has derived form 4 yet the Form 4 roster is empty. -/
theorem c6_clamped_student_not_on_roster :
    Student.form 2025 (Student.mk 1 1 "GHS/00001/20" 2020) = 4 ∧
    rosterStudents [Student.mk 1 1 "GHS/00001/20" 2020] 1 2025 4 = [] := by
  refine ⟨by decide, by rfl⟩

/-- C6 (amended): for every requested form number `F` (an arbitrary
integer taken from the query string), the roster is exactly the school's
students whose admission year equals `currentYear - F + 1`; for `F < 4`
(where the cohort formula does not clamp) this coincides with the set of
students whose derived cohort equals `F`; but every student admitted more
than four years ago has derived cohort 4 (clamped) and is excluded from
the Form 4 roster. -/
theorem c6_roster_is_exact_admission_year (students : List Student)
    (sid : Nat) (c F : Int) (s : Student) :
    (s ∈ rosterStudents students sid c F ↔
      s ∈ students ∧ s.school_id = sid ∧ s.admission_year = c - F + 1) ∧
    (F < 4 →
      (s ∈ rosterStudents students sid c F ↔
        s ∈ students ∧ s.school_id = sid ∧ Student.form c s = F)) ∧
    (s.admission_year < c - 3 →
      Student.form c s = 4 ∧ s ∉ rosterStudents students sid c 4) := by
  have hchar : ∀ G : Int, s ∈ rosterStudents students sid c G ↔
      s ∈ students ∧ s.school_id = sid ∧ s.admission_year = c - G + 1 := by
    intro G
    simp [rosterStudents, List.mem_filter, and_assoc]
  refine ⟨hchar F, ?_, ?_⟩
  · intro hF
    have h2 : s.admission_year = c - F + 1 ↔ Student.form c s = F := by
      unfold Student.form
      rw [min_def]
      split_ifs <;> omega
    exact (hchar F).trans (by rw [h2])
  · intro hy
    constructor
    · unfold Student.form
      rw [min_def]
      split_ifs <;> omega
    · intro hmem
      have := ((hchar 4).mp hmem).2.2
      omega

/-- Witness for C6 (amended): a 2024 admittee is on the 2025 Form 2
roster (discharging `F < 4`), and a 2020 admittee has derived cohort 4 in
2025 yet is absent from the Form 4 roster (discharging the clamping
hypothesis). -/
theorem c6_roster_is_exact_admission_year_witness :
    ((2:Int) < 4 ∧
      (Student.mk 1 1 "GHS/00001/24" 2024) ∈
        rosterStudents [Student.mk 1 1 "GHS/00001/24" 2024] 1 2025 2) ∧
    ((2020:Int) < 2025 - 3 ∧
      (Student.form 2025 (Student.mk 2 1 "GHS/00002/20" 2020) = 4 ∧
       (Student.mk 2 1 "GHS/00002/20" 2020) ∉
         rosterStudents [Student.mk 2 1 "GHS/00002/20" 2020] 1 2025 4)) :=
  ⟨⟨by decide,
    ((c6_roster_is_exact_admission_year
        [Student.mk 1 1 "GHS/00001/24" 2024] 1 2025 2
        (Student.mk 1 1 "GHS/00001/24" 2024)).2.1 (by decide)).mpr
      (by refine ⟨by simp, by decide, by decide⟩)⟩,
   ⟨by decide,
    (c6_roster_is_exact_admission_year
        [Student.mk 2 1 "GHS/00002/20" 2020] 1 2025 4
        (Student.mk 2 1 "GHS/00002/20" 2020)).2.2 (by decide)⟩⟩

/-- C7: `calculate_grade_letter` (app.py lines 85-91) maps marks through
the thresholds 90/80/70/60/50 to A+/A/B/C/D and everything below 50 to F,
with the stated boundary values falling on the stated sides. -/
theorem c7_grade_letter_thresholds (m : Int) :
    (90 ≤ m → calculate_grade_letter m = .AP) ∧
    (80 ≤ m ∧ m < 90 → calculate_grade_letter m = .A) ∧
    (70 ≤ m ∧ m < 80 → calculate_grade_letter m = .B) ∧
    (60 ≤ m ∧ m < 70 → calculate_grade_letter m = .C) ∧
    (50 ≤ m ∧ m < 60 → calculate_grade_letter m = .D) ∧
    (m < 50 → calculate_grade_letter m = .F) ∧
    calculate_grade_letter 92 = .AP ∧
    calculate_grade_letter 50 = .D ∧
    calculate_grade_letter 49 = .F ∧
    calculate_grade_letter 90 = .AP ∧
    calculate_grade_letter 89 = .A ∧
    calculate_grade_letter 80 = .A ∧
    calculate_grade_letter 79 = .B ∧
    calculate_grade_letter 70 = .B ∧
    calculate_grade_letter 69 = .C ∧
    calculate_grade_letter 60 = .C ∧
    calculate_grade_letter 59 = .D := by
  refine ⟨?_, ?_, ?_, ?_, ?_, ?_, by decide, by decide, by decide, by decide,
    by decide, by decide, by decide, by decide, by decide, by decide,
    by decide⟩ <;>
  · intro h
    unfold calculate_grade_letter
    split_ifs <;> first | rfl | (exfalso; omega)

/-- Witness for C7 at m = 92. -/
theorem c7_grade_letter_thresholds_witness :
    (90:Int) ≤ 92 ∧ calculate_grade_letter 92 = .AP :=
  ⟨by decide, (c7_grade_letter_thresholds 92).1 (by decide)⟩

/-- C8: grade submission is an upsert keyed on (student, subject, term)
(app.py lines 449-456): starting from a state with exactly one Grade row
for the triple, resubmitting keeps the count at 1 and the surviving row
carries the new marks, the recomputed letter and the new
teacher-of-record. -/
theorem c8_grade_upsert_keeps_single_row (grades : List Grade)
    (sid subj : Nat) (term : String) (marks : Int) (tid : Nat)
    (h : grades.countP (gradeKey sid subj term) = 1) :
    (submit_grade grades sid subj term marks tid).countP
        (gradeKey sid subj term) = 1 ∧
    ∃ g ∈ submit_grade grades sid subj term marks tid,
      gradeKey sid subj term g = true ∧ g.marks = marks ∧
      g.grade_letter = calculate_grade_letter marks ∧ g.teacher_id = tid := by
  induction grades with
  | nil => simp at h
  | cons g gs ih =>
    by_cases hg : gradeKey sid subj term g = true
    · have hupd : gradeKey sid subj term
          { g with marks := marks,
                   grade_letter := calculate_grade_letter marks,
                   teacher_id := tid } = true := by
        simp only [gradeKey] at hg ⊢
        exact hg
      have hgs : gs.countP (gradeKey sid subj term) = 0 := by
        simp only [List.countP_cons, hg, if_true] at h
        omega
      unfold submit_grade
      rw [if_pos hg]
      refine ⟨?_, _, by simp, hupd, rfl, rfl, rfl⟩
      simp [List.countP_cons, hupd, hgs]
    · have hg' : gradeKey sid subj term g = false := by
        rwa [Bool.not_eq_true] at hg
      have h' : gs.countP (gradeKey sid subj term) = 1 := by
        simp only [List.countP_cons, hg', if_false, Nat.add_zero] at h
        exact h
      unfold submit_grade
      rw [if_neg hg]
      obtain ⟨hcount, g', hmem, hrest⟩ := ih h'
      refine ⟨?_, g', by simp [hmem], hrest⟩
      simp [List.countP_cons, hg', hcount]

/-- Witness for C8: a single existing D-grade row is overwritten to an
A+-grade row by a resubmission with marks 92. -/
theorem c8_grade_upsert_keeps_single_row_witness :
    ([Grade.mk 50 .D "Term 1 2025" 1 2 3].countP (gradeKey 1 2 "Term 1 2025") = 1) ∧
    ((submit_grade [Grade.mk 50 .D "Term 1 2025" 1 2 3] 1 2 "Term 1 2025" 92 4).countP
        (gradeKey 1 2 "Term 1 2025") = 1 ∧
     ∃ g ∈ submit_grade [Grade.mk 50 .D "Term 1 2025" 1 2 3] 1 2 "Term 1 2025" 92 4,
       gradeKey 1 2 "Term 1 2025" g = true ∧ g.marks = 92 ∧
       g.grade_letter = calculate_grade_letter 92 ∧ g.teacher_id = 4) :=
  ⟨by rfl,
   c8_grade_upsert_keeps_single_row [Grade.mk 50 .D "Term 1 2025" 1 2 3]
     1 2 "Term 1 2025" 92 4 (by rfl)⟩

/-- C9: issuing a link code twice in sequence (app.py lines 365-375, which
delete any existing code row before inserting the new one) leaves exactly
one unused code for the student - the second one - and redeeming the
first-issued code afterwards fails with the generic invalid-code outcome
and changes nothing.  The freshness hypotheses reflect the uniqueness of
the randomly generated codes. -/
theorem c9_reissue_invalidates_old_code (codes : List StudentLinkCode)
    (students : List Student) (parent : Parent) (st_id : Nat)
    (c1 c2 : String) (h1 : ∀ lc ∈ codes, lc.code ≠ c1) (h2 : c1 ≠ c2) :
    (admin_generate_link_code (admin_generate_link_code codes st_id c1)
        st_id c2).filter
        (fun lc => lc.student_id == st_id && lc.is_used == false) =
      [⟨c2, false, st_id⟩] ∧
    parent_link_student
        (admin_generate_link_code (admin_generate_link_code codes st_id c1)
          st_id c2) students parent c1 =
      (.invalidCode,
       admin_generate_link_code (admin_generate_link_code codes st_id c1)
         st_id c2, parent) := by
  have hcollapse :
      admin_generate_link_code (admin_generate_link_code codes st_id c1)
          st_id c2 =
        (codes.filter (fun lc => lc.student_id != st_id)) ++
          [⟨c2, false, st_id⟩] := by
    unfold admin_generate_link_code
    rw [List.filter_append, List.filter_filter]
    simp
  constructor
  · rw [hcollapse, List.filter_append]
    have hleft : (codes.filter (fun lc => lc.student_id != st_id)).filter
        (fun lc => lc.student_id == st_id && lc.is_used == false) = [] := by
      rw [List.filter_filter]
      apply List.filter_eq_nil_iff.mpr
      intro lc _
      by_cases hsid : lc.student_id = st_id <;> simp [hsid]
    rw [hleft]
    simp
  · have hfind : (admin_generate_link_code
        (admin_generate_link_code codes st_id c1) st_id c2).find?
        (fun lc => lc.code == c1 && lc.is_used == false) = none := by
      rw [hcollapse]
      apply List.find?_eq_none.mpr
      intro lc hlc
      rcases List.mem_append.mp hlc with hmem | hmem
      · have := h1 lc (List.mem_filter.mp hmem).1
        simp [this]
      · simp only [List.mem_singleton] at hmem
        subst hmem
        simp only [Bool.and_eq_true, beq_iff_eq, not_and]
        exact fun hc _ => h2 hc.symm
    unfold parent_link_student
    rw [hfind]

/-- Witness for C9 with an empty initial code table and codes "AAA", "BBB". -/
theorem c9_reissue_invalidates_old_code_witness :
    ((admin_generate_link_code (admin_generate_link_code [] 7 "AAA") 7 "BBB").filter
        (fun lc => lc.student_id == 7 && lc.is_used == false) =
      [⟨"BBB", false, 7⟩] ∧
     parent_link_student
        (admin_generate_link_code (admin_generate_link_code [] 7 "AAA") 7 "BBB")
        [Student.mk 7 1 "GHS/00007/24" 2024] (Parent.mk 1 []) "AAA" =
      (.invalidCode,
       admin_generate_link_code (admin_generate_link_code [] 7 "AAA") 7 "BBB",
       Parent.mk 1 [])) :=
  c9_reissue_invalidates_old_code [] [Student.mk 7 1 "GHS/00007/24" 2024]
    (Parent.mk 1 []) 7 "AAA" "BBB" (by simp) (by decide)

/-! ### Invariants of the student-import loop -/

/-- Relation between two accepted rows: strictly increasing sequence
numbers and distinct admission numbers. -/
def AccLt (a b : AcceptedEntry) : Prop :=
  a.seq < b.seq ∧ a.admission_number ≠ b.admission_number

/-- Invariant of the student-import loop relative to the school code base
and pre-import count: the running counter equals the seed plus the number
of accepted rows; every accepted row's sequence number lies strictly above
the seed and at most at the counter and its admission number has the
generated shape; accepted rows are pairwise `AccLt`. -/
def studentInv (base : String) (pre : Nat) (st : StudentLoopSt) : Prop :=
  st.counter = pre + st.report.added ∧
  (∀ e ∈ st.accepted, pre < e.seq ∧ e.seq ≤ st.counter ∧
     e.admission_number =
       generate_admission_number base e.seq (twoDigitYear e.year)) ∧
  st.accepted.Pairwise AccLt

theorem studentInv_skip {base : String} {pre : Nat} {st : StudentLoopSt}
    (h : studentInv base pre st) (msg : String) :
    studentInv base pre { st with report := st.report.skip msg } := by
  obtain ⟨h1, h2, h3⟩ := h
  exact ⟨by simp [Report.skip, h1], h2, h3⟩

theorem studentStep_inv {base : String} {pre : Nat} (db : Db) (i : Nat)
    (r : StudentRowInput) (st : StudentLoopSt)
    (h : studentInv base pre st) :
    studentInv base pre (studentStep db base i r st) := by
  obtain ⟨h1, h2, h3⟩ := h
  unfold studentStep
  repeat' split
  all_goals first
  | exact ⟨by simp [Report.skip, h1], h2, h3⟩
  | -- accepted row
    (refine ⟨by simp [h1, Nat.add_assoc], ?_, ?_⟩
     · intro e he
       rcases List.mem_append.mp he with he | he
       · obtain ⟨ha, hb, hc⟩ := h2 e he
         exact ⟨ha, by simpa using Nat.le_succ_of_le hb, hc⟩
       · simp only [List.mem_singleton] at he
         subst he
         exact ⟨show pre < st.counter + 1 by omega, le_refl _, rfl⟩
     · rw [List.pairwise_append]
       refine ⟨h3, List.pairwise_singleton _ _, ?_⟩
       intro a ha b hb
       simp only [List.mem_singleton] at hb
       subst hb
       obtain ⟨_, hb', hc'⟩ := h2 a ha
       refine ⟨by simpa using Nat.lt_succ_of_le hb', ?_⟩
       intro hcontra
       rw [hc'] at hcontra
       have := generate_admission_number_seq_inj hcontra
       omega)

theorem studentLoop_inv {base : String} {pre : Nat} (db : Db) :
    ∀ (rows : List StudentRowInput) (i : Nat) (st : StudentLoopSt),
      studentInv base pre st →
      studentInv base pre (studentLoop db base i rows st) := by
  intro rows
  induction rows with
  | nil => intro i st h; simpa [studentLoop] using h
  | cons r rs ih =>
    intro i st h
    simp only [studentLoop]
    exact ih (i+1) _ (studentStep_inv db i r st h)

/-- C2: in any single student import, the sequence numbers the importer
assigns to accepted rows come from the in-memory counter seeded with the
school's pre-import count and incremented once per accepted row, so they
are strictly increasing, strictly above the seed, and the generated
admission numbers are collision-free.  In particular the spec's scenario
holds: importing Ann/Bea with a duplicate username into the empty school
`GHS@1` reports one added and one skipped row, gives Ann `GHS/00001/24`
and skips Bea with the username-taken message. -/
theorem c2_admission_number_sequencing (db : Db) (school : SchoolRef)
    (rows : List StudentRowInput) :
    ((studentLoop db (splitBase school.school_code) 0 rows
        (initStudentSt school.pre_count)).accepted.Pairwise
      (fun a b => a.seq < b.seq)) ∧
    ((studentLoop db (splitBase school.school_code) 0 rows
        (initStudentSt school.pre_count)).accepted.map
      (fun e => e.admission_number)).Nodup ∧
    ((studentLoop db (splitBase school.school_code) 0 rows
        (initStudentSt school.pre_count)).counter =
      school.pre_count +
        (studentLoop db (splitBase school.school_code) 0 rows
          (initStudentSt school.pre_count)).report.added) ∧
    (∀ e ∈ (studentLoop db (splitBase school.school_code) 0 rows
        (initStudentSt school.pre_count)).accepted,
      school.pre_count < e.seq) ∧
    process_student_upload studentRequiredCols
      [⟨some "Ann", .year 2024, some "ann1", some "secret1"⟩,
       ⟨some "Bea", .year 2024, some "ann1", some "secret2"⟩]
      ⟨[], []⟩ ⟨"GHS@1", 0⟩ =
    .ok (⟨1, 1, ["Row 3: Username 'ann1' is already taken."]⟩,
         [⟨"Ann", "GHS/00001/24", 2024, "ann1"⟩]) := by
  have hinv := @studentLoop_inv (splitBase school.school_code)
    school.pre_count db rows 0 (initStudentSt school.pre_count)
    ⟨by simp [initStudentSt], by simp [initStudentSt], by simp [initStudentSt]⟩
  obtain ⟨h1, h2, h3⟩ := hinv
  refine ⟨h3.imp (fun h => h.1), ?_, h1, fun e he => (h2 e he).1, by rfl⟩
  exact List.pairwise_map.mpr (h3.imp (fun h => h.2))

/-! ### Report accounting for the three import loops -/

theorem subjectStep_report (i : Nat) (c : Option String)
    (st : SubjectLoopSt) (h : st.report.errors.length = st.report.skipped) :
    (subjectStep i c st).report.errors.length =
      (subjectStep i c st).report.skipped ∧
    (subjectStep i c st).report.added + (subjectStep i c st).report.skipped =
      st.report.added + st.report.skipped + 1 := by
  unfold subjectStep
  repeat' split
  all_goals constructor <;> (simp [Report.skip, h] <;> omega)

theorem subjectLoop_report :
    ∀ (cells : List (Option String)) (i : Nat) (st : SubjectLoopSt),
      st.report.errors.length = st.report.skipped →
      (subjectLoop i cells st).report.errors.length =
        (subjectLoop i cells st).report.skipped ∧
      (subjectLoop i cells st).report.added +
          (subjectLoop i cells st).report.skipped =
        st.report.added + st.report.skipped + cells.length := by
  intro cells
  induction cells with
  | nil => intro i st h; simpa [subjectLoop] using h
  | cons c cs ih =>
    intro i st h
    simp only [subjectLoop]
    obtain ⟨hb, hs⟩ := subjectStep_report i c st h
    obtain ⟨hb', hs'⟩ := ih (i+1) _ hb
    refine ⟨hb', ?_⟩
    rw [hs', hs]
    simp [List.length_cons]
    omega

theorem studentStep_report (db : Db) (base : String) (i : Nat)
    (r : StudentRowInput) (st : StudentLoopSt)
    (h : st.report.errors.length = st.report.skipped) :
    (studentStep db base i r st).report.errors.length =
      (studentStep db base i r st).report.skipped ∧
    (studentStep db base i r st).report.added +
        (studentStep db base i r st).report.skipped =
      st.report.added + st.report.skipped + 1 := by
  unfold studentStep
  repeat' split
  all_goals constructor <;> (simp [Report.skip, h] <;> omega)

theorem studentLoop_report (db : Db) (base : String) :
    ∀ (rows : List StudentRowInput) (i : Nat) (st : StudentLoopSt),
      st.report.errors.length = st.report.skipped →
      (studentLoop db base i rows st).report.errors.length =
        (studentLoop db base i rows st).report.skipped ∧
      (studentLoop db base i rows st).report.added +
          (studentLoop db base i rows st).report.skipped =
        st.report.added + st.report.skipped + rows.length := by
  intro rows
  induction rows with
  | nil => intro i st h; simpa [studentLoop] using h
  | cons r rs ih =>
    intro i st h
    simp only [studentLoop]
    obtain ⟨hb, hs⟩ := studentStep_report db base i r st h
    obtain ⟨hb', hs'⟩ := ih (i+1) _ hb
    refine ⟨hb', ?_⟩
    rw [hs', hs]
    simp [List.length_cons]
    omega

theorem schoolStep_report (db : SchoolDb) (i : Nat) (r : SchoolRowInput)
    (st : SchoolLoopSt) (h : st.report.errors.length = st.report.skipped) :
    (schoolStep db i r st).report.errors.length =
      (schoolStep db i r st).report.skipped ∧
    (schoolStep db i r st).report.added + (schoolStep db i r st).report.skipped =
      st.report.added + st.report.skipped + 1 := by
  unfold schoolStep
  repeat' split
  all_goals constructor <;> (simp [Report.skip, h] <;> omega)

theorem schoolLoop_report (db : SchoolDb) :
    ∀ (rows : List SchoolRowInput) (i : Nat) (st : SchoolLoopSt),
      st.report.errors.length = st.report.skipped →
      (schoolLoop db i rows st).report.errors.length =
        (schoolLoop db i rows st).report.skipped ∧
      (schoolLoop db i rows st).report.added +
          (schoolLoop db i rows st).report.skipped =
        st.report.added + st.report.skipped + rows.length := by
  intro rows
  induction rows with
  | nil => intro i st h; simpa [schoolLoop] using h
  | cons r rs ih =>
    intro i st h
    simp only [schoolLoop]
    obtain ⟨hb, hs⟩ := schoolStep_report db i r st h
    obtain ⟨hb', hs'⟩ := ih (i+1) _ hb
    refine ⟨hb', ?_⟩
    rw [hs', hs]
    simp [List.length_cons]
    omega

/-- C10: whenever any of the three import functions returns a report,
`added + skipped` equals the number of data rows and the errors list holds
exactly one message per skipped row. -/
theorem c10_report_accounting
    (cols1 : List String) (cells : List (Option String))
    (existing : List String) (r1 : Report) (subs : List String)
    (cols2 : List String) (rows : List StudentRowInput) (db : Db)
    (school : SchoolRef) (r2 : Report) (studs : List StudentRec)
    (cols3 : List String) (srows : List SchoolRowInput) (sdb : SchoolDb)
    (r3 : Report) (sc : List String × List String)
    (h1 : process_subject_upload cols1 cells existing = .ok (r1, subs))
    (h2 : process_student_upload cols2 rows db school = .ok (r2, studs))
    (h3 : process_school_upload cols3 srows sdb = .ok (r3, sc)) :
    (r1.added + r1.skipped = cells.length ∧ r1.errors.length = r1.skipped) ∧
    (r2.added + r2.skipped = rows.length ∧ r2.errors.length = r2.skipped) ∧
    (r3.added + r3.skipped = srows.length ∧ r3.errors.length = r3.skipped) := by
  refine ⟨?_, ?_, ?_⟩
  · unfold process_subject_upload at h1
    split at h1
    · exact absurd h1 (by simp)
    · obtain ⟨hb, hs⟩ := subjectLoop_report cells 0
        ⟨⟨0, 0, []⟩, existing, []⟩ (by rfl)
      simp only [Except.ok.injEq, Prod.mk.injEq] at h1
      rw [← h1.1]
      exact ⟨by simpa using hs, hb⟩
  · unfold process_student_upload at h2
    split at h2
    · exact absurd h2 (by simp)
    · split at h2
      · exact absurd h2 (by simp)
      · obtain ⟨hb, hs⟩ := studentLoop_report db
          (splitBase school.school_code) rows 0
          (initStudentSt school.pre_count) (by rfl)
        simp only [Except.ok.injEq, Prod.mk.injEq] at h2
        rw [← h2.1]
        exact ⟨by simpa [initStudentSt] using hs, hb⟩
  · unfold process_school_upload at h3
    split at h3
    · exact absurd h3 (by simp)
    · split at h3
      · exact absurd h3 (by simp)
      · obtain ⟨hb, hs⟩ := schoolLoop_report sdb srows 0
          ⟨⟨0, 0, []⟩, [], [], [], [], 0, 0⟩ (by rfl)
        simp only [Except.ok.injEq, Prod.mk.injEq] at h3
        rw [← h3.1]
        exact ⟨by simpa using hs, hb⟩

/-- Witness for C10 on empty files with all required columns present. -/
theorem c10_report_accounting_witness :
    ((Report.mk 0 0 []).added + (Report.mk 0 0 []).skipped =
        ([] : List (Option String)).length ∧
      (Report.mk 0 0 []).errors.length = (Report.mk 0 0 []).skipped) ∧
    ((Report.mk 0 0 []).added + (Report.mk 0 0 []).skipped =
        ([] : List StudentRowInput).length ∧
      (Report.mk 0 0 []).errors.length = (Report.mk 0 0 []).skipped) ∧
    ((Report.mk 0 0 []).added + (Report.mk 0 0 []).skipped =
        ([] : List SchoolRowInput).length ∧
      (Report.mk 0 0 []).errors.length = (Report.mk 0 0 []).skipped) :=
  c10_report_accounting ["SubjectName"] [] [] (Report.mk 0 0 []) []
    studentRequiredCols [] ⟨[], []⟩ ⟨"GHS@1", 0⟩ (Report.mk 0 0 []) []
    schoolRequiredCols [] ⟨[], []⟩ (Report.mk 0 0 []) ([], [])
    (by rfl) (by rfl) (by rfl)

/-! ### The school import never fails at commit -/

/-- Invariant of the school-import loop: every staged admin username was
recorded in the in-file dedup list and does not collide with a committed
username, and the staged usernames are pairwise distinct.  It implies the
final commit cannot hit the username unique constraint. -/
def schoolInv (db : SchoolDb) (st : SchoolLoopSt) : Prop :=
  (∀ u ∈ st.pending_users,
    u ∈ st.new_users_in_file ∧ db.usernames.contains u = false) ∧
  st.pending_users.Nodup

theorem schoolStep_inv (db : SchoolDb) (i : Nat) (r : SchoolRowInput)
    (st : SchoolLoopSt) (h : schoolInv db st) :
    schoolInv db (schoolStep db i r st) := by
  obtain ⟨h1, h2⟩ := h
  unfold schoolStep
  repeat' split
  all_goals first
  | exact ⟨h1, h2⟩
  | exact ⟨by simp, List.nodup_nil⟩
  | -- accepted row: the new admin username passed both dedup checks
    (rename_i hcode huser hpass hflush
     rw [Bool.or_eq_true, not_or] at huser
     refine ⟨?_, ?_⟩
     · intro u hu
       rcases List.mem_append.mp hu with hu | hu
       · obtain ⟨ha, hb⟩ := h1 u hu
         exact ⟨List.mem_append.mpr (Or.inl ha), hb⟩
       · simp only [List.mem_singleton] at hu
         subst hu
         exact ⟨by simp, by simpa using huser.1⟩
     · rw [List.nodup_append]
       refine ⟨h2, List.nodup_singleton _, ?_⟩
       intro u hu hu'
       simp only [List.mem_singleton] at hu'
       subst hu'
       exact absurd ((h1 _ hu).1) (by simpa using huser.2))

theorem schoolLoop_inv (db : SchoolDb) :
    ∀ (rows : List SchoolRowInput) (i : Nat) (st : SchoolLoopSt),
      schoolInv db st → schoolInv db (schoolLoop db i rows st) := by
  intro rows
  induction rows with
  | nil => intro i st h; simpa [schoolLoop] using h
  | cons r rs ih =>
    intro i st h
    simp only [schoolLoop]
    exact ih (i+1) _ (schoolStep_inv db i r st h)

theorem schoolCommitConflict_false (db : SchoolDb) (st : SchoolLoopSt)
    (h : schoolInv db st) : schoolCommitConflict db st = false := by
  obtain ⟨h1, h2⟩ := h
  unfold schoolCommitConflict
  rw [List.any_eq_false]
  intro u hu
  have humem : u ∈ st.pending_users := List.mem_of_mem_drop hu
  have hdb : db.usernames.contains u = false := (h1 u humem).2
  have htake : u ∉ st.pending_users.take st.flushed_users := by
    rw [← List.take_append_drop st.flushed_users st.pending_users] at h2
    have hdisj := (List.nodup_append.mp h2).2.2
    intro hc
    exact hdisj hc hu
  have hdb' : u ∉ db.usernames := by simpa using hdb
  simp [hdb', htake]

/-- C4 counterexample: the claim says the import functions raise only for
file-level problems and otherwise always return a report.  But the student
importer never checks staged admission numbers against existing ones, so a
single valid row in a well-formed file can make the final commit raise:
school `GHS@2` shares the code base `GHS` with `GHS@1`, whose student
already owns `GHS/00001/24`, and importing Ann (2024) into the empty
`GHS@2` raises the database error instead of returning a report. -/
theorem c4_row_problem_raises_at_commit :
    process_student_upload studentRequiredCols
      [⟨some "Ann", .year 2024, some "ann1", some "secret1"⟩]
      ⟨[], ["GHS/00001/24"]⟩ ⟨"GHS@2", 0⟩ =
    .error "Database error. This may be due to duplicate data." := by rfl

/-- C4 (amended): each import function raises only for file-level problems
(missing required columns; an unreadable file fails upstream of these
functions) or when the final commit itself fails.  With all required
columns present the subject and school imports always return a report;
the student import returns a report unless the final commit hits the
admission-number unique constraint, in which case it raises a single
database error.  A missing column always aborts before any row is staged,
leaving the database unchanged. -/
theorem c4_raise_only_file_level_or_commit
    (cols1 : List String) (cells : List (Option String))
    (existing : List String)
    (cols2 : List String) (rows : List StudentRowInput) (db : Db)
    (school : SchoolRef)
    (cols3 : List String) (srows : List SchoolRowInput) (sdb : SchoolDb) :
    (cols1.contains "SubjectName" = true →
      ∃ v, process_subject_upload cols1 cells existing = .ok v) ∧
    (cols1.contains "SubjectName" = false →
      process_subject_upload cols1 cells existing =
        .error "Invalid file format. Missing required column: 'SubjectName'") ∧
    (studentRequiredCols.all (fun c => cols2.contains c) = true →
      (∃ v, process_student_upload cols2 rows db school = .ok v) ∨
      process_student_upload cols2 rows db school =
        .error "Database error. This may be due to duplicate data.") ∧
    (studentRequiredCols.all (fun c => cols2.contains c) = false →
      process_student_upload cols2 rows db school =
        .error ("Invalid file format. Missing one or more required columns: " ++
          "['FullName', 'AdmissionYear', 'LoginUsername', 'InitialPassword']")) ∧
    (schoolRequiredCols.all (fun c => cols3.contains c) = true →
      ∃ v, process_school_upload cols3 srows sdb = .ok v) ∧
    (schoolRequiredCols.all (fun c => cols3.contains c) = false →
      process_school_upload cols3 srows sdb =
        .error ("Invalid file format. Missing one or more required columns: " ++
          "['SchoolName', 'SchoolCode', 'AdminUsername', 'AdminPassword']")) := by
  refine ⟨?_, ?_, ?_, ?_, ?_, ?_⟩
  · intro hc
    unfold process_subject_upload
    rw [hc]
    exact ⟨_, rfl⟩
  · intro hc
    unfold process_subject_upload
    rw [hc]
    rfl
  · intro hc
    unfold process_student_upload
    rw [hc]
    cases hcc : studentCommitConflict db
        (studentLoop db (splitBase school.school_code) 0 rows
          (initStudentSt school.pre_count)) with
    | false => exact Or.inl ⟨_, rfl⟩
    | true => exact Or.inr rfl
  · intro hc
    unfold process_student_upload
    rw [hc]
    rfl
  · intro hc
    unfold process_school_upload
    rw [hc]
    have hinv := schoolLoop_inv sdb srows 0
      ⟨⟨0, 0, []⟩, [], [], [], [], 0, 0⟩ ⟨by simp, List.nodup_nil⟩
    rw [schoolCommitConflict_false sdb _ hinv]
    exact ⟨_, rfl⟩
  · intro hc
    unfold process_school_upload
    rw [hc]
    rfl

/-- Witness for C4 (amended), discharging each column-presence hypothesis
on concrete empty files. -/
theorem c4_raise_only_file_level_or_commit_witness :
    (∃ v, process_subject_upload ["SubjectName"] [] [] = .ok v) ∧
    (process_subject_upload [] [] [] =
      .error "Invalid file format. Missing required column: 'SubjectName'") ∧
    ((∃ v, process_student_upload studentRequiredCols [] ⟨[], []⟩
        ⟨"GHS@1", 0⟩ = .ok v) ∨
      process_student_upload studentRequiredCols [] ⟨[], []⟩ ⟨"GHS@1", 0⟩ =
        .error "Database error. This may be due to duplicate data.") ∧
    (process_student_upload [] [] ⟨[], []⟩ ⟨"GHS@1", 0⟩ =
      .error ("Invalid file format. Missing one or more required columns: " ++
        "['FullName', 'AdmissionYear', 'LoginUsername', 'InitialPassword']")) ∧
    (∃ v, process_school_upload schoolRequiredCols [] ⟨[], []⟩ = .ok v) ∧
    (process_school_upload [] [] ⟨[], []⟩ =
      .error ("Invalid file format. Missing one or more required columns: " ++
        "['SchoolName', 'SchoolCode', 'AdminUsername', 'AdminPassword']")) := by
  have hA := c4_raise_only_file_level_or_commit ["SubjectName"] [] []
    studentRequiredCols [] ⟨[], []⟩ ⟨"GHS@1", 0⟩ schoolRequiredCols [] ⟨[], []⟩
  have hB := c4_raise_only_file_level_or_commit [] [] []
    [] [] ⟨[], []⟩ ⟨"GHS@1", 0⟩ [] [] ⟨[], []⟩
  exact ⟨hA.1 (by rfl), hB.2.1 (by rfl), hA.2.2.1 (by rfl),
    hB.2.2.2.1 (by rfl), hA.2.2.2.2.1 (by rfl), hB.2.2.2.2.2 (by rfl)⟩

end SchoolNet
